import Mathlib

/-!
Shallow embedding of the vinyl-collection application (src/vinylApp.py).

The embedding models the ingestion pipeline and the save/log handlers:

* the duration/tracklist derivation loop of fetchReleaseDetails (lines 81-98),
  factored into deriveDuration and deriveTracklist exactly as the spec names them;
* Python int() on strings (ASCII fragment: surrounding whitespace, an optional
  sign, digits with single underscores between digits), used by the duration
  parsing, and Python str.split(sep, 1) as splitFirst;
* searchDiscogsApi (lines 50-65) and fetchReleaseDetails (lines 68-100), with
  the network modelled as an explicit transport oracle and the outcome carrying
  the number of network calls made and the diagnostic shown to the user;
* the title parse of the Add-via-catalog tab (lines 325-330) as parseArtistAlbum;
* the save handlers btnSaveApi (lines 358-377) and btnSaveManual (lines 393-412);
* the listen-button duration default (lines 244-246 and 280-282).

Strings are Lean Strings; machine integers do not occur (Python ints are
unbounded, so Int/Nat are exact); Python floor division is Int.fdiv.
-/

/-- One ASCII decimal digit, as used by Python number literals. -/
def isAsciiDigit (c : Char) : Bool :=
  decide ('0' ≤ c) && decide (c ≤ '9')

/-- Python whitespace stripped by int() around a numeric literal (ASCII part). -/
def isPySpace (c : Char) : Bool :=
  c == ' ' || c == '\t' || c == '\n' || c == '\r' || c == '\x0B' || c == '\x0C'

/-- Strip leading and trailing Python whitespace from a character list. -/
def stripPySpace (l : List Char) : List Char :=
  ((l.dropWhile isPySpace).reverse.dropWhile isPySpace).reverse

/-- After a leading digit, Python digit strings continue with digits, with at
most one underscore between two digits (grammar digit (["_"] digit)*). -/
def digitsTail : List Char → Bool
  | [] => true
  | ['_'] => false
  | '_' :: c :: rest => isAsciiDigit c && digitsTail rest
  | c :: rest => isAsciiDigit c && digitsTail rest

/-- A valid Python unsigned digit string: non-empty, digits with single
underscores between digits. -/
def validDigits : List Char → Bool
  | [] => false
  | c :: rest => isAsciiDigit c && digitsTail rest

/-- Numeric value of a digit string, ignoring underscores. -/
def digitsVal (l : List Char) : Nat :=
  l.foldl (fun acc c => if c = '_' then acc else acc * 10 + (c.toNat - 48)) 0

/-- Sign handling of Python int(str), applied to the already stripped literal:
an optional leading sign followed by a valid digit string. -/
def pyIntOfStripped : List Char → Option Int
  | [] => none
  | c :: rest =>
    if c = '+' then
      if validDigits rest then some ((digitsVal rest : Nat) : Int) else none
    else if c = '-' then
      if validDigits rest then some (-((digitsVal rest : Nat) : Int)) else none
    else
      if validDigits (c :: rest) then some ((digitsVal (c :: rest) : Nat) : Int) else none

/-- Python int(str) on a character list: strip surrounding whitespace, accept an
optional sign followed by a valid digit string; none models a ValueError. -/
def pyIntOfChars (l : List Char) : Option Int :=
  pyIntOfStripped (stripPySpace l)

/-- Python s.split(sep, 1) restricted to the found case: splits at the first
occurrence of sep, returning the parts before and after; none when sep does not
occur (sep is always non-empty where this is used). -/
def splitFirst (sep : List Char) : List Char → Option (List Char × List Char)
  | [] => none
  | c :: rest =>
    if sep <+: (c :: rest) then some ([], (c :: rest).drop sep.length)
    else (splitFirst sep rest).map (fun p => (c :: p.1, p.2))

/-- One entry of the Discogs tracklist array, after the dict.get defaults of the
source: track.get("title", "") and track.get("duration", ""), so a missing field
is the empty string. -/
structure Track where
  title : String
  duration : String
deriving DecidableEq, Repr

/-- The try-block of the totalSeconds loop after the split: int(minutes) * 60 +
int(seconds) when both conversions succeed; a ValueError from either conversion
is caught and the track contributes zero. -/
def secondsOfParsed : Option Int → Option Int → Int
  | some m, some s => m * 60 + s
  | _, _ => 0

/-- Seconds contributed by the two parts produced by
durationStr.split(":", 1); the none case cannot arise under the colon guard. -/
def splitSecondsValue : Option (List Char × List Char) → Int
  | some (minutesPart, secondsPart) =>
    secondsOfParsed (pyIntOfChars minutesPart) (pyIntOfChars secondsPart)
  | none => 0

/-- Seconds contributed by one track in the totalSeconds loop of
fetchReleaseDetails: guarded by the truthiness test
(durationStr and ":" in durationStr), split at the first colon, both parts
converted with int(); a ValueError is caught and contributes zero. -/
def pyTrackSeconds (durationStr : String) : Int :=
  if durationStr ≠ "" ∧ ':' ∈ durationStr.data then
    splitSecondsValue (splitFirst [':'] durationStr.data)
  else 0

/-- RecordNormalizer.deriveDuration: the totalSeconds accumulation of
fetchReleaseDetails followed by totalSeconds // 60 (Python floor division). -/
def deriveDuration (tracks : List Track) : Int :=
  (tracks.foldl (fun totalSeconds t => totalSeconds + pyTrackSeconds t.duration) 0).fdiv 60

/-- The trackNames accumulation of fetchReleaseDetails: a title is appended only
when it is truthy (non-empty). -/
def deriveTracklistNames (tracks : List Track) : List String :=
  tracks.foldl (fun trackNames t => if t.title ≠ "" then trackNames ++ [t.title] else trackNames) []

/-- RecordNormalizer.deriveTracklist: " | ".join(trackNames). -/
def deriveTracklist (tracks : List Track) : String :=
  String.intercalate " | " (deriveTracklistNames tracks)

/-- The literal separator " - " of the title parse. -/
def sepDash : List Char := [' ', '-', ' ']

/-- The title parse of the Add-via-catalog tab: if " - " occurs in the raw
title, split at its first occurrence; otherwise artist defaults to
"Unknown Artist" and the album is the whole raw title. -/
def parseArtistAlbum (rawTitle : String) : String × String :=
  match splitFirst sepDash rawTitle.data with
  | some (parsedArtist, parsedAlbum) => (String.mk parsedArtist, String.mk parsedAlbum)
  | none => ("Unknown Artist", rawTitle)

/-- One Discogs search result, with the fields the application reads. -/
structure SearchResult where
  title : String
  year : String
  coverImage : String
  genre : List String
  id : Nat
deriving DecidableEq, Repr

/-- The JSON body of a search response; results is None when the "results" key
is absent (responseData.get("results", [])). -/
structure SearchPayload where
  results : Option (List SearchResult)
deriving DecidableEq

/-- The JSON body of a release-details response; tracklist is None when the
"tracklist" key is absent (responseData.get("tracklist", [])). -/
structure ReleasePayload where
  tracklist : Option (List Track)
deriving DecidableEq

/-- Outcome of one HTTP GET as the source observes it: success carries the
parsed JSON payload; failure stands for any exception raised by requests.get,
raise_for_status (transport or authorization error) or json decoding. -/
inductive NetResult (α : Type) where
  | success : α → NetResult α
  | failure : String → NetResult α
deriving DecidableEq

/-- What searchDiscogsApi returns and does: the result list, how many network
requests were issued, and the diagnostic shown via st.error, if any. -/
structure SearchOutcome where
  results : List SearchResult
  networkCalls : Nat
  diagnostic : Option String
deriving DecidableEq

/-- What fetchReleaseDetails returns and does: the derived pair and how many
network requests were issued. -/
structure DetailsOutcome where
  durationMins : Int
  tracklist : String
  networkCalls : Nat
deriving DecidableEq

/-- Python truthiness test "if not apiToken" on the result of
getSecretsData("discogs_token"): missing secret or empty string is falsy. -/
def pyFalsyToken : Option String → Bool
  | none => true
  | some s => s == ""

/-- The search endpoint URL built by searchDiscogsApi. -/
def searchUrl (searchQuery apiToken : String) : String :=
  "https://api.discogs.com/database/search?q=" ++ searchQuery ++
    "&type=release&token=" ++ apiToken

/-- The release-details endpoint URL built by fetchReleaseDetails. -/
def releaseUrl (releaseId : Nat) (apiToken : String) : String :=
  "https://api.discogs.com/releases/" ++ toString releaseId ++ "?token=" ++ apiToken

/-- searchDiscogsApi (source lines 50-65): no token means an immediate empty
return with zero network calls; otherwise one GET, whose failure is caught,
reported via st.error and downgraded to an empty list; on success the first 10
entries of the results array are returned. -/
def searchDiscogsApi (apiToken : Option String)
    (transport : String → NetResult SearchPayload) (searchQuery : String) : SearchOutcome :=
  match apiToken with
  | none => { results := [], networkCalls := 0, diagnostic := none }
  | some tok =>
    if tok = "" then { results := [], networkCalls := 0, diagnostic := none }
    else
      match transport (searchUrl searchQuery tok) with
      | NetResult.success responseData =>
        { results := (responseData.results.getD []).take 10, networkCalls := 1, diagnostic := none }
      | NetResult.failure e =>
        { results := [], networkCalls := 1, diagnostic := some ("API Connection Error: " ++ e) }

/-- fetchReleaseDetails (source lines 68-100): no token means (0, "") with zero
network calls; otherwise one GET; any exception yields (0, ""); on success the
tracklist array is folded into the derived duration and tracklist string. -/
def fetchReleaseDetails (apiToken : Option String)
    (transport : String → NetResult ReleasePayload) (releaseId : Nat) : DetailsOutcome :=
  match apiToken with
  | none => { durationMins := 0, tracklist := "", networkCalls := 0 }
  | some tok =>
    if tok = "" then { durationMins := 0, tracklist := "", networkCalls := 0 }
    else
      match transport (releaseUrl releaseId tok) with
      | NetResult.success responseData =>
        let tracks := responseData.tracklist.getD []
        { durationMins := deriveDuration tracks, tracklist := deriveTracklist tracks,
          networkCalls := 1 }
      | NetResult.failure _ =>
        { durationMins := 0, tracklist := "", networkCalls := 1 }

/-- The row dictionary inserted into the Inventory table. -/
structure VinylDict where
  id : Nat
  artist : String
  albumName : String
  genre : String
  year : String
  coverUrl : String
  condition : String
  durationMins : Int
  tracklist : String
deriving DecidableEq, Repr

/-- The widget values present when the btnSaveApi handler runs. -/
structure ApiSaveInputs where
  finalArtist : String
  finalAlbum : String
  finalGenre : String
  finalYear : String
  parsedCover : String
  finalCondition : String
  finalDuration : Int
  finalTracklist : String
deriving DecidableEq, Repr

/-- The widget values present when the btnSaveManual handler runs. -/
structure ManualSaveInputs where
  inputArtist : String
  inputAlbum : String
  inputYear : String
  inputDuration : Int
  inputTracklist : String
  inputGenre : String
  inputUrl : String
  inputStatus : String
deriving DecidableEq, Repr

/-- The newVinylDict built by the btnSaveApi handler; generatedId is
int(time.time()), the current Unix time truncated to whole seconds. -/
def mkApiEntry (generatedId : Nat) (i : ApiSaveInputs) : VinylDict :=
  { id := generatedId, artist := i.finalArtist, albumName := i.finalAlbum,
    genre := i.finalGenre, year := i.finalYear, coverUrl := i.parsedCover,
    condition := i.finalCondition, durationMins := i.finalDuration,
    tracklist := i.finalTracklist }

/-- The btnSaveApi handler (source lines 358-377): builds the dictionary and
hands it to addNewVinyl unconditionally; some e means e is persisted. -/
def btnSaveApiHandler (now : Nat) (i : ApiSaveInputs) : Option VinylDict :=
  some (mkApiEntry now i)

/-- The newVinylDict built by the btnSaveManual handler. -/
def mkManualEntry (generatedId : Nat) (i : ManualSaveInputs) : VinylDict :=
  { id := generatedId, artist := i.inputArtist, albumName := i.inputAlbum,
    genre := i.inputGenre, year := i.inputYear, coverUrl := i.inputUrl,
    condition := i.inputStatus, durationMins := i.inputDuration,
    tracklist := i.inputTracklist }

/-- The btnSaveManual handler (source lines 393-412): persists only when both
inputArtist and inputAlbum are truthy (non-empty); otherwise shows a warning
and persists nothing (none). -/
def btnSaveManualHandler (now : Nat) (i : ManualSaveInputs) : Option VinylDict :=
  if i.inputArtist ≠ "" ∧ i.inputAlbum ≠ "" then some (mkManualEntry now i) else none

/-- The DurationMins value handed to logListeningSession by the listen buttons
of the collection view (source lines 244-246 and 280-282, both occurrences are
the identical expression): displayDuration if displayDuration else 45, where
displayDuration is row.get("DurationMins", 0); the stored duration is modelled
as an optional integer, none standing for a missing value. -/
def listenLogDuration (storedDuration : Option Int) : Int :=
  let displayDuration := storedDuration.getD 0
  if displayDuration ≠ 0 then displayDuration else 45

/-- Modelled from the spec wording of claim C1 (its M+:SS pattern), for
comparison with the source behaviour: seconds contributed by one track when
only duration texts matching one-or-more digits, a colon, exactly two digits
are counted. -/
def specMSSSeconds (s : String) : Nat :=
  match s.data.reverse with
  | d2 :: d1 :: ':' :: rest =>
    if isAsciiDigit d2 && isAsciiDigit d1 && !rest.isEmpty && rest.all isAsciiDigit then
      digitsVal rest.reverse * 60 + ((d1.toNat - 48) * 10 + (d2.toNat - 48))
    else 0
  | _ => 0

/-- Modelled from the spec wording of claim C1: total of the M+:SS-matching
durations, integer-divided by 60. -/
def specDeriveDurationMSS (tracks : List Track) : Nat :=
  (tracks.foldl (fun acc t => acc + specMSSSeconds t.duration) 0) / 60
theorem splitFirst_sound (sep : List Char) :
    ∀ (l a b : List Char), splitFirst sep l = some (a, b) → l = a ++ sep ++ b := by
  intro l
  induction l with
  | nil => intro a b h; simp [splitFirst] at h
  | cons c rest ih =>
    intro a b h
    rw [splitFirst] at h
    by_cases hpre : sep <+: (c :: rest)
    · rw [if_pos hpre] at h
      obtain ⟨t, ht⟩ := hpre
      simp only [Option.some.injEq, Prod.mk.injEq] at h
      obtain ⟨ha, hb⟩ := h
      subst ha
      subst hb
      rw [← ht]
      simp
    · rw [if_neg hpre] at h
      cases hr : splitFirst sep rest with
      | none => rw [hr] at h; simp at h
      | some p =>
        obtain ⟨p1, p2⟩ := p
        rw [hr] at h
        simp only [Option.map_some', Option.some.injEq, Prod.mk.injEq] at h
        obtain ⟨ha, hb⟩ := h
        subst ha
        subst hb
        have := ih p1 p2 hr
        simp [this]

theorem splitFirst_of_first_occurrence (sep : List Char) (hsep : sep ≠ []) :
    ∀ (a b : List Char),
      (∀ j, j < a.length → ¬ sep <+: ((a ++ sep ++ b).drop j)) →
      splitFirst sep (a ++ sep ++ b) = some (a, b) := by
  intro a
  induction a with
  | nil =>
    intro b _
    obtain ⟨c, sep', rfl⟩ : ∃ c sep', sep = c :: sep' := by
      cases sep with
      | nil => exact absurd rfl hsep
      | cons c s => exact ⟨c, s, rfl⟩
    show splitFirst (c :: sep') (c :: (sep' ++ b)) = some ([], b)
    rw [splitFirst, if_pos ⟨b, rfl⟩]
    simp
  | cons x a' ih =>
    intro b h
    have h0 : ¬ sep <+: (x :: (a' ++ sep ++ b)) := by
      have := h 0 (by simp)
      simpa [List.cons_append] using this
    show splitFirst sep (x :: (a' ++ sep ++ b)) = some (x :: a', b)
    rw [splitFirst, if_neg h0]
    have hrest : splitFirst sep (a' ++ sep ++ b) = some (a', b) := by
      apply ih
      intro j hj
      have := h (j + 1) (by simp; omega)
      simpa [List.cons_append] using this
    rw [hrest]
    rfl

theorem splitFirst_none_of_no_split (sep : List Char) :
    ∀ l, (∀ a b, l ≠ a ++ sep ++ b) → splitFirst sep l = none := by
  intro l
  induction l with
  | nil => intro _; rfl
  | cons c rest ih =>
    intro h
    have hpre : ¬ sep <+: (c :: rest) := by
      rintro ⟨t, ht⟩
      exact h [] t (by simpa using ht.symm)
    rw [splitFirst, if_neg hpre]
    have hnone : splitFirst sep rest = none := by
      apply ih
      intro a b hab
      exact h (c :: a) b (by simp [hab, List.cons_append])
    rw [hnone]
    rfl

theorem splitFirst_single_notMem (c : Char) :
    ∀ (a b : List Char), c ∉ a → splitFirst [c] (a ++ c :: b) = some (a, b) := by
  intro a
  induction a with
  | nil =>
    intro b _
    show splitFirst [c] (c :: b) = some ([], b)
    rw [splitFirst, if_pos ⟨b, rfl⟩]
    rfl
  | cons x a' ih =>
    intro b hx
    have hxc : x ≠ c := by
      intro h
      subst h
      exact hx (List.mem_cons_self x a')
    have hnotin : c ∉ a' := fun hmem => hx (List.mem_cons_of_mem _ hmem)
    have hpre : ¬ [c] <+: (x :: (a' ++ c :: b)) := by
      rintro ⟨t, ht⟩
      injection ht with h1 _
      exact hxc h1.symm
    show splitFirst [c] (x :: (a' ++ c :: b)) = some (x :: a', b)
    rw [splitFirst, if_neg hpre, ih b hnotin]
    rfl

theorem mem_stripPySpace {x : Char} {l : List Char} (h : x ∈ stripPySpace l) : x ∈ l := by
  unfold stripPySpace at h
  rw [List.mem_reverse] at h
  have h1 := (List.dropWhile_sublist isPySpace).subset h
  rw [List.mem_reverse] at h1
  exact (List.dropWhile_sublist isPySpace).subset h1

theorem pyIntOfChars_nonneg {l : List Char} (hl : '-' ∉ l) {v : Int}
    (hv : pyIntOfChars l = some v) : 0 ≤ v := by
  unfold pyIntOfChars at hv
  cases hb : stripPySpace l with
  | nil => rw [hb] at hv; simp [pyIntOfStripped] at hv
  | cons c rest =>
    rw [hb, pyIntOfStripped] at hv
    have hc : c ≠ '-' := by
      intro h
      subst h
      apply hl
      apply mem_stripPySpace
      rw [hb]
      exact List.mem_cons_self _ _
    by_cases h1 : c = '+'
    · rw [if_pos h1] at hv
      by_cases h2 : validDigits rest
      · rw [if_pos h2] at hv
        injection hv with hv'
        rw [← hv']
        exact Int.natCast_nonneg _
      · rw [if_neg h2] at hv; cases hv
    · rw [if_neg h1, if_neg hc] at hv
      by_cases h3 : validDigits (c :: rest)
      · rw [if_pos h3] at hv
        injection hv with hv'
        rw [← hv']
        exact Int.natCast_nonneg _
      · rw [if_neg h3] at hv; cases hv

theorem foldl_seconds_eq (tracks : List Track) :
    ∀ init : Int,
      tracks.foldl (fun acc t => acc + pyTrackSeconds t.duration) init
        = init + ((tracks.map fun t => pyTrackSeconds t.duration).sum) := by
  induction tracks with
  | nil => intro init; simp
  | cons t ts ih => intro init; simp [ih, add_assoc]

theorem deriveDuration_eq_mapSum (tracks : List Track) :
    deriveDuration tracks = ((tracks.map fun t => pyTrackSeconds t.duration).sum).fdiv 60 := by
  unfold deriveDuration
  rw [foldl_seconds_eq, zero_add]

theorem pyTrackSeconds_parse_eq (a b : List Char) (m s : Int) (ha : ':' ∉ a)
    (hm : pyIntOfChars a = some m) (hs : pyIntOfChars b = some s) :
    pyTrackSeconds (String.mk (a ++ ':' :: b)) = m * 60 + s := by
  have hne : String.mk (a ++ ':' :: b) ≠ "" := by
    intro h
    have hdat : a ++ ':' :: b = ([] : List Char) := congrArg String.data h
    simp at hdat
  have hmem : ':' ∈ (String.mk (a ++ ':' :: b)).data :=
    List.mem_append_right _ (List.mem_cons_self _ _)
  have hsf : splitFirst [':'] (String.mk (a ++ ':' :: b)).data = some (a, b) :=
    splitFirst_single_notMem ':' a b ha
  unfold pyTrackSeconds
  rw [if_pos ⟨hne, hmem⟩, hsf, splitSecondsValue, hm, hs]
  rfl

theorem pyTrackSeconds_parse_none (a b : List Char) (ha : ':' ∉ a)
    (hnone : pyIntOfChars a = none ∨ pyIntOfChars b = none) :
    pyTrackSeconds (String.mk (a ++ ':' :: b)) = 0 := by
  have hne : String.mk (a ++ ':' :: b) ≠ "" := by
    intro h
    have hdat : a ++ ':' :: b = ([] : List Char) := congrArg String.data h
    simp at hdat
  have hmem : ':' ∈ (String.mk (a ++ ':' :: b)).data :=
    List.mem_append_right _ (List.mem_cons_self _ _)
  have hsf : splitFirst [':'] (String.mk (a ++ ':' :: b)).data = some (a, b) :=
    splitFirst_single_notMem ':' a b ha
  unfold pyTrackSeconds
  rw [if_pos ⟨hne, hmem⟩, hsf, splitSecondsValue]
  rcases hnone with h | h
  · rw [h]
    simp [secondsOfParsed]
  · cases hpa : pyIntOfChars a with
    | none => simp [secondsOfParsed]
    | some mv => rw [h]; simp [secondsOfParsed]

theorem pyTrackSeconds_no_colon (s : String) (h : ':' ∉ s.data) : pyTrackSeconds s = 0 := by
  unfold pyTrackSeconds
  rw [if_neg]
  intro hc
  exact h hc.2

theorem pyTrackSeconds_nonneg (s : String) (hs : '-' ∉ s.data) : 0 ≤ pyTrackSeconds s := by
  unfold pyTrackSeconds
  by_cases hc : s ≠ "" ∧ ':' ∈ s.data
  · rw [if_pos hc]
    cases hsf : splitFirst [':'] s.data with
    | none => simp [splitSecondsValue]
    | some p =>
      obtain ⟨minutesPart, secondsPart⟩ := p
      have hdecomp := splitFirst_sound [':'] s.data minutesPart secondsPart hsf
      have hm : '-' ∉ minutesPart := by
        intro hx
        apply hs
        rw [hdecomp]
        exact List.mem_append_left _ (List.mem_append_left _ hx)
      have hsnd : '-' ∉ secondsPart := by
        intro hx
        apply hs
        rw [hdecomp]
        exact List.mem_append_right _ hx
      rw [splitSecondsValue]
      cases hpa : pyIntOfChars minutesPart with
      | none => simp [secondsOfParsed]
      | some m =>
        cases hpb : pyIntOfChars secondsPart with
        | none => simp [secondsOfParsed]
        | some sv =>
          have h1 := pyIntOfChars_nonneg hm hpa
          have h2 := pyIntOfChars_nonneg hsnd hpb
          simp only [secondsOfParsed]
          omega
  · rw [if_neg hc]

theorem tracklistNames_eq_filter (tracks : List Track) :
    ∀ acc : List String,
      tracks.foldl
          (fun trackNames t => if t.title ≠ "" then trackNames ++ [t.title] else trackNames) acc
        = acc ++ (tracks.map Track.title).filter (fun s => decide (s ≠ "")) := by
  induction tracks with
  | nil => intro acc; simp
  | cons t ts ih =>
    intro acc
    simp only [List.foldl_cons, List.map_cons, List.filter_cons]
    by_cases h : t.title = ""
    · rw [if_neg (not_not_intro h), ih, if_neg (by simp [h])]
    · rw [if_pos h, ih, if_pos (by simp [h])]
      simp

/-- C1 (counterexample): the claim restricts contributions to duration texts
matching M+:SS, with exactly two seconds digits; the source accepts "3:5"
(one seconds digit) and counts 185 seconds, so on the one-track list with
duration "3:5" the code yields 3 minutes where the claimed formula yields 0. -/
theorem deriveDuration_counterexample_oneDigitSeconds :
    deriveDuration [Track.mk "Intro" "3:5"] = 3 ∧
    specDeriveDurationMSS [Track.mk "Intro" "3:5"] = 0 ∧
    deriveDuration [Track.mk "Intro" "3:5"]
      ≠ (specDeriveDurationMSS [Track.mk "Intro" "3:5"] : Int) := by
  decide

/-- C1 (amended): deriveDuration is the total of the per-track contributions,
floor-divided by 60, where a track whose duration text splits at its first
colon into two parts that both convert with Python int() contributes
minutes * 60 + seconds (seconds are not restricted to two digits and may carry
a sign or surrounding whitespace), a track whose text has a colon but an
unconvertible part contributes zero, a track whose text has no colon
contributes zero, and the 3:45 / 4:10 / bad example yields 7 minutes. -/
theorem deriveDuration_amended_characterization :
    (∀ tracks : List Track,
        deriveDuration tracks
          = ((tracks.map fun t => pyTrackSeconds t.duration).sum).fdiv 60) ∧
    (∀ (a b : List Char) (m s : Int), ':' ∉ a →
        pyIntOfChars a = some m → pyIntOfChars b = some s →
        pyTrackSeconds (String.mk (a ++ ':' :: b)) = m * 60 + s) ∧
    (∀ (a b : List Char), ':' ∉ a →
        (pyIntOfChars a = none ∨ pyIntOfChars b = none) →
        pyTrackSeconds (String.mk (a ++ ':' :: b)) = 0) ∧
    (∀ s : String, ':' ∉ s.data → pyTrackSeconds s = 0) ∧
    deriveDuration [Track.mk "A1" "3:45", Track.mk "A2" "4:10", Track.mk "A3" "bad"] = 7 :=
  ⟨deriveDuration_eq_mapSum, pyTrackSeconds_parse_eq, pyTrackSeconds_parse_none,
   pyTrackSeconds_no_colon, by decide⟩

/-- C1 (witness): the characterization applied at concrete inputs: "3:45"
contributes 225 seconds, "3:x" contributes zero, "bad" contributes zero. -/
theorem deriveDuration_amended_characterization_witness :
    pyTrackSeconds (String.mk (['3'] ++ ':' :: ['4', '5'])) = 3 * 60 + 45 ∧
    pyTrackSeconds (String.mk (['3'] ++ ':' :: ['x'])) = 0 ∧
    pyTrackSeconds "bad" = 0 :=
  ⟨deriveDuration_amended_characterization.2.1 ['3'] ['4', '5'] 3 45 (by decide)
      (by decide) (by decide),
   deriveDuration_amended_characterization.2.2.1 ['3'] ['x'] (by decide)
      (Or.inr (by decide)),
   deriveDuration_amended_characterization.2.2.2.1 "bad" (by decide)⟩

/-- C2 (counterexample): the btnSaveApi handler persists an entry whose artist
is empty; the catalog save path has no validation at all, contradicting the
claim that the empty-artist case is rejected on every save path. -/
theorem apiSave_persistsEmptyArtist :
    btnSaveApiHandler 1700000001 (ApiSaveInputs.mk "" "The Wall" "Rock" "1979" "" "New" 80 "")
      = some (VinylDict.mk 1700000001 "" "The Wall" "Rock" "1979" "" "New" 80 "") :=
  rfl

/-- C2 (amended): only the manual save path validates: with an empty artist or
album it persists nothing (a warning is shown instead of a ValidationError);
the Add-via-catalog save path persists its entry unconditionally. -/
theorem saveValidation_amended :
    (∀ (now : Nat) (i : ManualSaveInputs),
        i.inputArtist = "" ∨ i.inputAlbum = "" → btnSaveManualHandler now i = none) ∧
    (∀ (now : Nat) (i : ApiSaveInputs),
        btnSaveApiHandler now i = some (mkApiEntry now i)) := by
  constructor
  · intro now i h
    unfold btnSaveManualHandler
    rw [if_neg]
    rintro ⟨h1, h2⟩
    rcases h with h | h
    exacts [h1 h, h2 h]
  · intro now i
    rfl

/-- C2 (witness): the amended statement applied at concrete inputs: an empty
manual artist is not persisted; a catalog save always persists. -/
theorem saveValidation_amended_witness :
    btnSaveManualHandler 1700000002
        (ManualSaveInputs.mk "" "Kind of Blue" "1959" 45 "" "Jazz" "" "Mint") = none ∧
    btnSaveApiHandler 1700000002
        (ApiSaveInputs.mk "Miles Davis" "Kind of Blue" "Jazz" "1959" "" "Mint" 45 "")
      = some (mkApiEntry 1700000002
          (ApiSaveInputs.mk "Miles Davis" "Kind of Blue" "Jazz" "1959" "" "Mint" 45 "")) :=
  ⟨saveValidation_amended.1 1700000002 _ (Or.inl rfl),
   saveValidation_amended.2 1700000002 _⟩

/-- C3 (counterexample): int() accepts a sign, so the duration text "0:-61"
contributes -61 seconds and the whole derivation is -61 fdiv 60 = -2, a
negative result, contradicting unconditional non-negativity. -/
theorem deriveDuration_negative_counterexample :
    deriveDuration [Track.mk "Side A" "0:-61"] = -2 ∧
    deriveDuration [Track.mk "Side A" "0:-61"] < 0 := by
  decide

/-- C3 (amended): deriveDuration is non-negative for every sequence of tracks
none of whose duration texts contains a minus sign (in particular for all
digit-and-colon duration data). -/
theorem deriveDuration_nonneg_amended (tracks : List Track)
    (h : ∀ t ∈ tracks, '-' ∉ t.duration.data) : 0 ≤ deriveDuration tracks := by
  rw [deriveDuration_eq_mapSum]
  apply Int.fdiv_nonneg _ (by norm_num)
  apply List.sum_nonneg
  intro x hx
  rcases List.mem_map.1 hx with ⟨t, ht, rfl⟩
  exact pyTrackSeconds_nonneg t.duration (h t ht)

/-- C3 (witness): non-negativity applied to a concrete minus-free track list. -/
theorem deriveDuration_nonneg_amended_witness :
    0 ≤ deriveDuration [Track.mk "A1" "3:45", Track.mk "A2" "4:10", Track.mk "A3" "bad"] :=
  deriveDuration_nonneg_amended _ (by decide)

/-- C4: parseArtistAlbum splits at the first occurrence of " - ": when the raw
title decomposes as a ++ " - " ++ b with no earlier occurrence of the
separator, the result is (a, b); when no decomposition exists, the result is
("Unknown Artist", raw title); and the two spec examples hold. -/
theorem parseArtistAlbum_firstSplit_spec :
    (∀ (raw : String) (a b : List Char),
        raw.data = a ++ sepDash ++ b →
        (∀ j, j < a.length → ¬ sepDash <+: (raw.data.drop j)) →
        parseArtistAlbum raw = (String.mk a, String.mk b)) ∧
    (∀ raw : String, (∀ a b : List Char, raw.data ≠ a ++ sepDash ++ b) →
        parseArtistAlbum raw = ("Unknown Artist", raw)) ∧
    parseArtistAlbum "Pink Floyd - The Wall" = ("Pink Floyd", "The Wall") ∧
    parseArtistAlbum "Unknown Title" = ("Unknown Artist", "Unknown Title") := by
  refine ⟨?_, ?_, by decide, by decide⟩
  · intro raw a b hdata hocc
    unfold parseArtistAlbum
    have hsf : splitFirst sepDash raw.data = some (a, b) := by
      rw [hdata]
      apply splitFirst_of_first_occurrence sepDash (by decide)
      intro j hj
      rw [← hdata]
      exact hocc j hj
    rw [hsf]
  · intro raw hno
    unfold parseArtistAlbum
    rw [splitFirst_none_of_no_split sepDash raw.data hno]

/-- C4 (witness): both branches applied at concrete inputs: a title containing
the separator exactly once splits there; a two-character title without the
separator falls back to "Unknown Artist". -/
theorem parseArtistAlbum_firstSplit_spec_witness :
    parseArtistAlbum (String.mk (['P', 'F'] ++ sepDash ++ ['W']))
      = (String.mk ['P', 'F'], String.mk ['W']) ∧
    parseArtistAlbum (String.mk ['X', 'Y']) = ("Unknown Artist", String.mk ['X', 'Y']) := by
  constructor
  · exact parseArtistAlbum_firstSplit_spec.1 _ ['P', 'F'] ['W'] rfl (by decide)
  · refine parseArtistAlbum_firstSplit_spec.2.1 _ ?_
    intro a b h
    have hlen := congrArg List.length h
    simp [sepDash] at hlen
    omega

/-- C5 (counterexample): the trackNames loop appends only truthy (non-empty)
titles, so a track with an empty title is dropped from the joined string
instead of being kept as an empty entry: the claim that all track titles are
joined in order fails on the list with titles "A", "", "C". -/
theorem deriveTracklist_counterexample_emptyTitle :
    deriveTracklist [Track.mk "A" "", Track.mk "" "", Track.mk "C" ""] = "A | C" ∧
    deriveTracklist [Track.mk "A" "", Track.mk "" "", Track.mk "C" ""]
      ≠ String.intercalate " | "
          ([Track.mk "A" "", Track.mk "" "", Track.mk "C" ""].map Track.title) := by
  decide

/-- C5 (amended): deriveTracklist joins the non-empty track titles, in original
order, with " | "; the empty sequence yields "", and titles A, B, C yield
"A | B | C". -/
theorem deriveTracklist_amended :
    (∀ tracks : List Track,
        deriveTracklist tracks
          = String.intercalate " | "
              ((tracks.map Track.title).filter (fun s => decide (s ≠ "")))) ∧
    deriveTracklist [] = "" ∧
    deriveTracklist [Track.mk "A" "", Track.mk "B" "", Track.mk "C" ""] = "A | B | C" := by
  refine ⟨?_, by decide, by decide⟩
  intro tracks
  unfold deriveTracklist deriveTracklistNames
  rw [tracklistNames_eq_filter, List.nil_append]

/-- C6: with a missing or empty bearer credential, searchDiscogsApi returns the
empty list and fetchReleaseDetails returns zero duration and an empty
tracklist, both with zero network calls, whatever the transport would answer. -/
theorem noCredential_noNetwork :
    ∀ (apiToken : Option String) (tSearch : String → NetResult SearchPayload)
      (tDetails : String → NetResult ReleasePayload) (query : String) (releaseId : Nat),
      pyFalsyToken apiToken = true →
        searchDiscogsApi apiToken tSearch query
          = { results := [], networkCalls := 0, diagnostic := none } ∧
        fetchReleaseDetails apiToken tDetails releaseId
          = { durationMins := 0, tracklist := "", networkCalls := 0 } := by
  intro tok ts td q rid h
  cases tok with
  | none => exact ⟨rfl, rfl⟩
  | some s =>
    have hs : s = "" := by simpa [pyFalsyToken] using h
    subst hs
    constructor
    · simp [searchDiscogsApi]
    · simp [fetchReleaseDetails]

/-- C6 (witness): the no-credential behaviour at a concrete transport that
would fail if it were ever consulted. -/
theorem noCredential_noNetwork_witness :
    searchDiscogsApi none (fun _ => NetResult.failure "down") "pink floyd"
      = { results := [], networkCalls := 0, diagnostic := none } ∧
    fetchReleaseDetails none (fun _ => NetResult.failure "down") 12345
      = { durationMins := 0, tracklist := "", networkCalls := 0 } :=
  noCredential_noNetwork none (fun _ => NetResult.failure "down")
    (fun _ => NetResult.failure "down") "pink floyd" 12345 rfl

/-- C7: when the transport fails (any exception from the request, from
raise_for_status on an authorization failure, or from JSON decoding),
searchDiscogsApi returns the empty list together with the diagnostic shown via
st.error; being a total function of the transport outcome, it raises nothing
past the boundary. -/
theorem searchError_softFail :
    ∀ (tok : String) (transport : String → NetResult SearchPayload) (query e : String),
      tok ≠ "" → transport (searchUrl query tok) = NetResult.failure e →
      searchDiscogsApi (some tok) transport query
        = { results := [], networkCalls := 1,
            diagnostic := some ("API Connection Error: " ++ e) } := by
  intro tok tr q e htok htr
  simp only [searchDiscogsApi]
  rw [if_neg htok]
  simp only [htr]

/-- C7 (witness): the soft failure at a concrete failing transport. -/
theorem searchError_softFail_witness :
    searchDiscogsApi (some "tok123") (fun _ => NetResult.failure "HTTPError 401") "pink floyd"
      = { results := [], networkCalls := 1,
          diagnostic := some ("API Connection Error: " ++ "HTTPError 401") } :=
  searchError_softFail "tok123" (fun _ => NetResult.failure "HTTPError 401") "pink floyd"
    "HTTPError 401" (by decide) rfl

/-- C8: searchDiscogsApi returns at most 10 results in every case, and whenever
the catalog answers with a results array rs, the returned list is a prefix of
rs, preserving its relevance ordering. -/
theorem search_atMostTen_orderPreserved :
    ∀ (apiToken : Option String) (transport : String → NetResult SearchPayload)
      (query : String),
      (searchDiscogsApi apiToken transport query).results.length ≤ 10 ∧
      (∀ (tok : String) (payload : SearchPayload) (rs : List SearchResult),
        apiToken = some tok →
        transport (searchUrl query tok) = NetResult.success payload →
        payload.results = some rs →
        (searchDiscogsApi apiToken transport query).results <+: rs) := by
  intro tok tr q
  constructor
  · cases tok with
    | none => simp [searchDiscogsApi]
    | some s =>
      simp only [searchDiscogsApi]
      by_cases hs : s = ""
      · rw [if_pos hs]
        simp
      · rw [if_neg hs]
        cases htr : tr (searchUrl q s) with
        | success payload => simp [List.length_take]
        | failure e => simp
  · intro t payload rs htok htr hres
    subst htok
    simp only [searchDiscogsApi]
    by_cases hs : t = ""
    · rw [if_pos hs]
      exact List.nil_prefix
    · rw [if_neg hs]
      simp only [htr, hres, Option.getD_some]
      exact List.take_prefix 10 rs

/-- C8 (witness): the bound and the prefix property at a concrete two-result
catalog answer. -/
theorem search_atMostTen_orderPreserved_witness :
    (searchDiscogsApi (some "tok123")
        (fun _ => NetResult.success (SearchPayload.mk (some
          [SearchResult.mk "Pink Floyd - The Wall" "1979" "" ["Rock"] 1,
           SearchResult.mk "Pink Floyd - Animals" "1977" "" ["Rock"] 2])))
        "pink floyd").results.length ≤ 10 ∧
    (searchDiscogsApi (some "tok123")
        (fun _ => NetResult.success (SearchPayload.mk (some
          [SearchResult.mk "Pink Floyd - The Wall" "1979" "" ["Rock"] 1,
           SearchResult.mk "Pink Floyd - Animals" "1977" "" ["Rock"] 2])))
        "pink floyd").results <+:
      [SearchResult.mk "Pink Floyd - The Wall" "1979" "" ["Rock"] 1,
       SearchResult.mk "Pink Floyd - Animals" "1977" "" ["Rock"] 2] :=
  ⟨(search_atMostTen_orderPreserved (some "tok123")
      (fun _ => NetResult.success (SearchPayload.mk (some
        [SearchResult.mk "Pink Floyd - The Wall" "1979" "" ["Rock"] 1,
         SearchResult.mk "Pink Floyd - Animals" "1977" "" ["Rock"] 2])))
      "pink floyd").1,
   (search_atMostTen_orderPreserved (some "tok123")
      (fun _ => NetResult.success (SearchPayload.mk (some
        [SearchResult.mk "Pink Floyd - The Wall" "1979" "" ["Rock"] 1,
         SearchResult.mk "Pink Floyd - Animals" "1977" "" ["Rock"] 2])))
      "pink floyd").2 "tok123" _ _ rfl rfl rfl⟩

/-- C9 (counterexample): two saves performed within the same whole second (one
via the catalog path, one manual) both receive id int(time.time()) and thus
share the same id while being distinct persisted entries, contradicting
uniqueness per insertion. -/
theorem generatedId_counterexample_sameSecond :
    (btnSaveApiHandler 1700000000
        (ApiSaveInputs.mk "Pink Floyd" "The Wall" "Rock" "1979" "" "New" 80 "")).map VinylDict.id
      = some 1700000000 ∧
    (btnSaveManualHandler 1700000000
        (ManualSaveInputs.mk "Miles Davis" "Kind of Blue" "1959" 45 "" "Jazz" "" "Mint")).map
        VinylDict.id
      = some 1700000000 ∧
    btnSaveApiHandler 1700000000
        (ApiSaveInputs.mk "Pink Floyd" "The Wall" "Rock" "1979" "" "New" 80 "")
      ≠ btnSaveManualHandler 1700000000
        (ManualSaveInputs.mk "Miles Davis" "Kind of Blue" "1959" 45 "" "Jazz" "" "Mint") := by
  decide

/-- C9 (amended): every persisted entry carries id equal to the whole-second
Unix time of its insertion, and insertions at distinct whole-second times get
distinct ids; uniqueness within the same second is not guaranteed. -/
theorem generatedId_amended :
    (∀ (now : Nat) (i : ApiSaveInputs) (e : VinylDict),
        btnSaveApiHandler now i = some e → e.id = now) ∧
    (∀ (now : Nat) (i : ManualSaveInputs) (e : VinylDict),
        btnSaveManualHandler now i = some e → e.id = now) ∧
    (∀ (n n' : Nat) (i : ApiSaveInputs) (i' : ManualSaveInputs),
        n ≠ n' → (mkApiEntry n i).id ≠ (mkManualEntry n' i').id) := by
  refine ⟨?_, ?_, ?_⟩
  · intro now i e h
    injection h with h'
    rw [← h']
    rfl
  · intro now i e h
    unfold btnSaveManualHandler at h
    by_cases hco : i.inputArtist ≠ "" ∧ i.inputAlbum ≠ ""
    · rw [if_pos hco] at h
      injection h with h'
      rw [← h']
      rfl
    · rw [if_neg hco] at h
      cases h
  · intro n n' i i' h
    simpa [mkApiEntry, mkManualEntry] using h

/-- C9 (witness): the amended statement at concrete saves one second apart. -/
theorem generatedId_amended_witness :
    (mkApiEntry 1700000003
        (ApiSaveInputs.mk "Pink Floyd" "The Wall" "Rock" "1979" "" "New" 80 "")).id
      = 1700000003 ∧
    (mkManualEntry 1700000004
        (ManualSaveInputs.mk "Miles Davis" "Kind of Blue" "1959" 45 "" "Jazz" "" "Mint")).id
      = 1700000004 ∧
    (mkApiEntry 1700000003
        (ApiSaveInputs.mk "Pink Floyd" "The Wall" "Rock" "1979" "" "New" 80 "")).id
      ≠ (mkManualEntry 1700000004
        (ManualSaveInputs.mk "Miles Davis" "Kind of Blue" "1959" 45 "" "Jazz" "" "Mint")).id :=
  ⟨generatedId_amended.1 1700000003
      (ApiSaveInputs.mk "Pink Floyd" "The Wall" "Rock" "1979" "" "New" 80 "") _ rfl,
   generatedId_amended.2.1 1700000004
      (ManualSaveInputs.mk "Miles Davis" "Kind of Blue" "1959" 45 "" "Jazz" "" "Mint") _
      (by decide),
   generatedId_amended.2.2 1700000003 1700000004
      (ApiSaveInputs.mk "Pink Floyd" "The Wall" "Rock" "1979" "" "New" 80 "")
      (ManualSaveInputs.mk "Miles Davis" "Kind of Blue" "1959" 45 "" "Jazz" "" "Mint")
      (by decide)⟩

/-- C10: a listen button logs 45 minutes when the stored duration is missing or
zero, and logs the stored value itself when it is non-zero. -/
theorem listenDefaultDuration_spec :
    (∀ storedDuration : Option Int,
        storedDuration = none ∨ storedDuration = some 0 →
        listenLogDuration storedDuration = 45) ∧
    (∀ d : Int, d ≠ 0 → listenLogDuration (some d) = d) := by
  constructor
  · rintro sd (rfl | rfl) <;> decide
  · intro d hd
    unfold listenLogDuration
    simp only [Option.getD_some]
    rw [if_pos hd]

/-- C10 (witness): the default and the pass-through at concrete durations. -/
theorem listenDefaultDuration_spec_witness :
    listenLogDuration none = 45 ∧ listenLogDuration (some 0) = 45 ∧
    listenLogDuration (some 33) = 33 :=
  ⟨listenDefaultDuration_spec.1 none (Or.inl rfl),
   listenDefaultDuration_spec.1 (some 0) (Or.inr rfl),
   listenDefaultDuration_spec.2 33 (by decide)⟩
